import Mathlib

/-!
Verification of the search ranking engine of the dishlist-api repository
(`src/routes/search.ts`), as a shallow embedding in Lean.

Modelling conventions:
* JavaScript numbers are idealised as exact rationals (`ℚ`).  All scoring
  arithmetic in the source is addition, comparison, `Math.min` and one
  division (the recency boost), which are exact over `ℚ`.
* `Math.log10`, the one transcendental operation (inside
  `calculatePopularityBoost`), is abstracted as an explicit function
  parameter `log10p1 : Nat → ℚ` standing for `count ↦ Math.log10(count + 1)`;
  no claim depends on its values.
* `Date.now()` is passed explicitly as a millisecond timestamp `now : Int`,
  and `Date.getTime()` values are stored as `Int` milliseconds.
* `Set<string>` is modelled as `List String` with membership, `prisma`
  tables as lists inside a `DB` record, and a `findMany` call as a filter
  over the corresponding table followed by `take`.
* JavaScript string operations (`toLowerCase`, `trim`, `startsWith`,
  `includes`, the escaped word-boundary regex, `localeCompare`,
  `parseInt`, `Array.prototype.slice`) are modelled character-wise below.
  `toLowerCase` is modelled as per-character ASCII lowering and
  `localeCompare` as code-point comparison; no claim depends on locale or
  non-ASCII case behaviour.
-/

/-! ## JavaScript string primitives -/

/-- Whitespace recognised by JavaScript `trim` and `parseInt`. -/
def isJsWhitespace (c : Char) : Bool :=
  c ∈ [' ', '\t', '\n', '\r', '\x0b', '\x0c', '\u00A0', '\uFEFF']

/-- JavaScript `String.prototype.toLowerCase`, per character. -/
def jsToLower (s : String) : String :=
  ⟨s.data.map Char.toLower⟩

/-- JavaScript `String.prototype.trim`. -/
def jsTrim (s : String) : String :=
  ⟨((s.data.dropWhile isJsWhitespace).reverse.dropWhile isJsWhitespace).reverse⟩

/-- The normalisation `s.toLowerCase().trim()` used by `calculateTextScore`. -/
def jsNormalize (s : String) : String :=
  jsTrim (jsToLower s)

/-- `t.startsWith q` on character lists (first argument is the text). -/
def startsWithChars : List Char → List Char → Bool
  | _, [] => true
  | [], _ :: _ => false
  | c :: cs, d :: ds => c = d && startsWithChars cs ds

/-- `hay.includes needle` on character lists. -/
def containsChars : List Char → List Char → Bool
  | [], needle => needle.isEmpty
  | c :: rest, needle => startsWithChars (c :: rest) needle || containsChars rest needle

/-- JavaScript regex `\w`: ASCII letters, digits and underscore. -/
def isWordChar (c : Char) : Bool :=
  ('a' ≤ c && c ≤ 'z') || ('A' ≤ c && c ≤ 'Z') || ('0' ≤ c && c ≤ '9') || c = '_'

/-- Word-ness of the character at index `j` of `cs` (out of range counts as
non-word, as in the regex engine). -/
def charIsWordAt (cs : List Char) (j : Nat) : Bool :=
  match cs.get? j with
  | some c => isWordChar c
  | none => false

/-- A `\b` word boundary at position `i` of `cs`. -/
def hasBoundaryAt (cs : List Char) (i : Nat) : Bool :=
  (if i = 0 then false else charIsWordAt cs (i - 1)) != charIsWordAt cs i

/-- The test `new RegExp("\\b" + escapeRegex(q) + "\\b").test t`: the query
occurs literally in `t` flanked by word boundaries.  `escapeRegex` in the
source makes the query letters literal, which is how the occurrence is
modelled here. -/
def wordBoundaryMatch (q t : List Char) : Bool :=
  (List.range (t.length + 1)).any fun i =>
    startsWithChars (t.drop i) q && hasBoundaryAt t i && hasBoundaryAt t (i + q.length)

/-- Code-point comparison standing in for `localeCompare` (sign only). -/
def strCmpChars : List Char → List Char → Int
  | [], [] => 0
  | [], _ :: _ => -1
  | _ :: _, [] => 1
  | a :: as, b :: bs => if a < b then -1 else if b < a then 1 else strCmpChars as bs

/-! ## JavaScript numeric / array primitives -/

/-- Decimal digit value (code points 48–57). -/
def digitVal (c : Char) : Option Nat :=
  if c.isDigit then some (c.toNat - 48) else none

/-- Hexadecimal digit value (decimal digits, then `a`–`f` at code points
97–102 and `A`–`F` at 65–70). -/
def hexDigitVal (c : Char) : Option Nat :=
  if c.isDigit then some (c.toNat - 48)
  else if 97 ≤ c.toNat && c.toNat ≤ 102 then some (c.toNat - 87)
  else if 65 ≤ c.toNat && c.toNat ≤ 70 then some (c.toNat - 55)
  else none

/-- Longest digit prefix, `none` when no digit was consumed (`NaN`). -/
def parseDigits (dv : Char → Option Nat) (base : Nat) :
    List Char → Nat → Bool → Option Nat
  | [], acc, consumed => if consumed then some acc else none
  | c :: rest, acc, consumed =>
    match dv c with
    | some d => parseDigits dv base rest (acc * base + d) true
    | none => if consumed then some acc else none

/-- JavaScript `parseInt(s)` (radix unspecified): skip whitespace, optional
sign, optional `0x`/`0X` hex prefix, longest digit run; `none` is `NaN`. -/
def jsParseInt (s : String) : Option Int :=
  let cs := s.data.dropWhile isJsWhitespace
  let signAndRest : Int × List Char :=
    match cs with
    | '+' :: r => (1, r)
    | '-' :: r => (-1, r)
    | r => (1, r)
  let digits : Option Nat :=
    match signAndRest.2 with
    | '0' :: 'x' :: r => parseDigits hexDigitVal 16 r 0 false
    | '0' :: 'X' :: r => parseDigits hexDigitVal 16 r 0 false
    | r => parseDigits digitVal 10 r 0 false
  digits.map fun n => signAndRest.1 * (n : Int)

/-- The JavaScript idiom `x || d` applied to a `parseInt` result: `NaN`
(`none`) and `0` are falsy and replaced by the default. -/
def jsFalsyOr (o : Option Int) (d : Int) : Int :=
  match o with
  | some n => if n = 0 then d else n
  | none => d

/-- Resolution of one `Array.prototype.slice` index against a length. -/
def jsResolveIdx (len : Nat) (i : Int) : Nat :=
  if i < 0 then (max ((len : Int) + i) 0).toNat else (min i (len : Int)).toNat

/-- JavaScript `l.slice(s, e)`. -/
def jsSlice (l : List α) (s e : Int) : List α :=
  (l.take (jsResolveIdx l.length e)).drop (jsResolveIdx l.length s)

/-- `prisma` `take`: first `n` rows, or last `-n` rows when `n` is negative. -/
def dbTake (n : Int) (l : List α) : List α :=
  if 0 ≤ n then l.take n.toNat else (l.reverse.take (-n).toNat).reverse

/-- JavaScript `Array.prototype.findIndex`, with `-1` modelled as `none`. -/
def jsFindIndexAux (p : α → Bool) : List α → Nat → Option Nat
  | [], _ => none
  | x :: xs, i => if p x then some i else jsFindIndexAux p xs (i + 1)

def jsFindIndex (p : α → Bool) (l : List α) : Option Nat :=
  jsFindIndexAux p l 0

/-! ## Data model (`DB` rows and scored result shapes from `search.ts`) -/

/-- The `creator` / `owner` projection selected by the search queries. -/
structure Creator where
  uid : String
  username : Option String
  firstName : Option String
  lastName : Option String
deriving DecidableEq, Repr

/-- A `user` row as selected by `searchUsers`. -/
structure User where
  uid : String
  username : Option String
  firstName : Option String
  lastName : Option String
  avatarUrl : Option String
deriving DecidableEq, Repr

/-- A recipe ingredient entry: either a plain string or a structured record
whose `text` field may be absent (`ingredient?.text`). -/
inductive Ingredient where
  | str (s : String)
  | obj (text : Option String)
deriving DecidableEq, Repr

/-- `typeof ingredient === "string" ? ingredient : ingredient?.text`. -/
def ingredientTextOf : Ingredient → Option String
  | .str s => some s
  | .obj t => t

/-- A `recipe` row (with its included `creator`).  `updatedAt` is a
millisecond timestamp. -/
structure Recipe where
  id : String
  title : String
  description : Option String
  imageUrl : Option String
  prepTime : Option Int
  cookTime : Option Int
  servings : Option Int
  tags : List String
  ingredients : List Ingredient
  creatorId : String
  creator : Creator
  updatedAt : Int
deriving DecidableEq, Repr

/-- A `dishListCollaborator` row with its included user names. -/
structure Collaborator where
  userId : String
  firstName : Option String
  lastName : Option String
deriving DecidableEq, Repr

/-- A `dishList` row.  `recipeIds` are the ordered `dishListRecipe` relation
rows and `followerIds` the `dishListFollower` relation rows. -/
structure DishList where
  id : String
  title : String
  description : Option String
  visibility : String
  ownerId : String
  owner : Creator
  collaborators : List Collaborator
  recipeIds : List String
  followerIds : List String
  updatedAt : Int
deriving DecidableEq, Repr

/-- The data store: each `prisma` model as a table. -/
structure DB where
  users : List User
  recipes : List Recipe
  dishLists : List DishList
  userFollows : List (String × String)
deriving DecidableEq, Repr

/-- `followerId` of a `userFollow` row. -/
def followRowFollower (f : String × String) : String := f.1

/-- `followingId` of a `userFollow` row. -/
def followRowFollowing (f : String × String) : String := f.2

/-- `interface ScoredUser`. -/
structure ScoredUser where
  uid : String
  username : Option String
  firstName : Option String
  lastName : Option String
  avatarUrl : Option String
  isFollowing : Bool
  isMutual : Bool
  score : ℚ
deriving DecidableEq, Repr

/-- `interface ScoredRecipe`. -/
structure ScoredRecipe where
  id : String
  title : String
  description : Option String
  imageUrl : Option String
  prepTime : Option Int
  cookTime : Option Int
  servings : Option Int
  tags : List String
  creatorId : String
  creator : Creator
  score : ℚ
deriving DecidableEq, Repr

/-- `interface ScoredDishList`. -/
structure ScoredDishList where
  id : String
  title : String
  description : Option String
  visibility : String
  recipeCount : Nat
  followerCount : Nat
  owner : Creator
  isFollowing : Bool
  isCollaborator : Bool
  score : ℚ
deriving DecidableEq, Repr

/-! ## Scoring functions -/

/-- The weight table passed to `calculateTextScore`. -/
structure TextWeights where
  exact : ℚ
  startsWith : ℚ
  wordMatch : ℚ
  contains : ℚ
deriving DecidableEq, Repr

/-- `calculateTextScore(query, text, weights)`: tiered text relevance.
`if (!text) return 0` makes both `null` and the empty string score 0. -/
def calculateTextScore (query : String) (text : Option String)
    (weights : TextWeights) : ℚ :=
  match text with
  | none => 0
  | some t =>
    if t = "" then 0
    else
      let normalizedQuery := jsNormalize query
      let normalizedText := jsNormalize t
      if normalizedText = normalizedQuery then weights.exact
      else if startsWithChars normalizedText.data normalizedQuery.data then weights.startsWith
      else if wordBoundaryMatch normalizedQuery.data normalizedText.data then weights.wordMatch
      else if containsChars normalizedText.data normalizedQuery.data then weights.contains
      else 0

/-- `calculatePopularityBoost(count, maxBoost)`; `log10p1 count` stands for
`Math.log10(count + 1)`. -/
def calculatePopularityBoost (log10p1 : Nat → ℚ) (count : Nat) (maxBoost : ℚ) : ℚ :=
  if count = 0 then 0 else min maxBoost (log10p1 count * 3)

/-- `calculateRecencyBoost(updatedAt, maxBoost)` with `Date.now()` passed
explicitly (both in milliseconds). -/
def calculateRecencyBoost (now updatedAt : Int) (maxBoost : ℚ) : ℚ :=
  let daysSinceUpdate : ℚ := ((now - updatedAt : Int) : ℚ) / (1000 * 60 * 60 * 24)
  if 30 < daysSinceUpdate then 0 else maxBoost * (1 - daysSinceUpdate / 30)

/-- `[firstName, lastName].filter(Boolean).join(" ")`: drops `null` and
empty strings. -/
def displayNameOf (firstName lastName : Option String) : String :=
  String.intercalate " " (([firstName, lastName].filterMap id).filter (fun s => s ≠ ""))

/-- `scoreUser`: display-name and username text matches are additive, then a
tab-dependent social boost (gated at base 50 on the ALL tab). -/
def scoreUser (user : User) (query : String) (currentUserId : String)
    (followingIds followerIds : List String) (isAllTab : Bool) : ScoredUser :=
  let displayName := displayNameOf user.firstName user.lastName
  let textScore :=
    calculateTextScore query (some displayName) ⟨100, 90, 80, 60⟩
      + calculateTextScore query user.username ⟨100, 70, 65, 50⟩
  let isFollowing := followingIds.contains user.uid
  let isMutual := isFollowing && followerIds.contains user.uid
  let score :=
    if isAllTab then
      if 50 ≤ textScore then
        textScore + (if isMutual then 20 else if isFollowing then 15 else 0)
      else textScore
    else
      textScore + (if isMutual then 40 else if isFollowing then 30 else 0)
  { uid := user.uid, username := user.username, firstName := user.firstName,
    lastName := user.lastName, avatarUrl := user.avatarUrl,
    isFollowing := isFollowing, isMutual := isMutual, score := score }

/-- The tag loop of `scoreRecipe`: scan tags in order, add the first tag
whose score is positive, then `break`. -/
def recipeTagScore (query : String) : List String → ℚ
  | [] => 0
  | tag :: rest =>
    let tagScore := calculateTextScore query (some tag) ⟨50, 40, 35, 25⟩
    if 0 < tagScore then tagScore else recipeTagScore query rest

/-- The ingredient loop of `scoreRecipe`: positional weights (indices `< 3`
are "top" ingredients), falsy texts are skipped, first positive match wins. -/
def recipeIngredientScore (query : String) : Nat → List Ingredient → ℚ
  | _, [] => 0
  | i, ing :: rest =>
    match ingredientTextOf ing with
    | some t =>
      if t = "" then recipeIngredientScore query (i + 1) rest
      else
        let isTopIngredient := i < 3
        let ingredientScore := calculateTextScore query (some t)
          ⟨if isTopIngredient then 45 else 25, if isTopIngredient then 40 else 20,
           if isTopIngredient then 35 else 18, if isTopIngredient then 25 else 12⟩
        if 0 < ingredientScore then ingredientScore
        else recipeIngredientScore query (i + 1) rest
    | none => recipeIngredientScore query (i + 1) rest

/-- The additive text part of `scoreRecipe` (title, tags, ingredients,
description, creator name), before social and recency boosts. -/
def recipeBaseScore (recipe : Recipe) (query : String) : ℚ :=
  calculateTextScore query (some recipe.title) ⟨100, 90, 80, 60⟩
    + recipeTagScore query recipe.tags
    + recipeIngredientScore query 0 recipe.ingredients
    + calculateTextScore query recipe.description ⟨25, 20, 18, 15⟩
    + calculateTextScore query
        (some (displayNameOf recipe.creator.firstName recipe.creator.lastName))
        ⟨20, 15, 12, 8⟩

/-- `scoreRecipe`: base text score, then social boosts (gated at base 50 and
capped at +10 on the ALL tab; unconditional +15/+10 on the RECIPES tab),
then the recency boost capped at 5. -/
def scoreRecipe (now : Int) (recipe : Recipe) (query : String)
    (currentUserId : String) (followingIds savedRecipeIds : List String)
    (isAllTab : Bool) : ScoredRecipe :=
  let base := recipeBaseScore recipe query
  let withSocial :=
    if isAllTab then
      if 50 ≤ base then
        base + min 10 ((if savedRecipeIds.contains recipe.id then (10 : ℚ) else 0)
          + (if followingIds.contains recipe.creatorId then 6 else 0))
      else base
    else
      base + (if savedRecipeIds.contains recipe.id then (15 : ℚ) else 0)
        + (if followingIds.contains recipe.creatorId then 10 else 0)
  let score := withSocial + calculateRecencyBoost now recipe.updatedAt 5
  { id := recipe.id, title := recipe.title, description := recipe.description,
    imageUrl := recipe.imageUrl, prepTime := recipe.prepTime,
    cookTime := recipe.cookTime, servings := recipe.servings,
    tags := recipe.tags, creatorId := recipe.creatorId,
    creator := recipe.creator, score := score }

/-- The `recipe` projection included with a dish list (`title` and
`ingredients` of each sampled recipe). -/
structure DLRecipeView where
  title : String
  ingredients : List Ingredient
deriving DecidableEq, Repr

/-- The `dishList` object `scoreDishList` receives: the row plus included
relations (`collaborators`, first 10 `recipes`, `_count`). -/
structure DishListCandidate where
  id : String
  title : String
  description : Option String
  visibility : String
  ownerId : String
  owner : Creator
  collaborators : List Collaborator
  recipes : List DLRecipeView
  recipeCount : Nat
  followerCount : Nat
  updatedAt : Int
deriving DecidableEq, Repr

/-- The collaborator loop of `scoreDishList`: first collaborator whose
display name scores positively. -/
def dlCollaboratorScore (query : String) : List Collaborator → ℚ
  | [] => 0
  | collab :: rest =>
    let collabScore := calculateTextScore query
      (some (displayNameOf collab.firstName collab.lastName)) ⟨35, 30, 25, 20⟩
    if 0 < collabScore then collabScore else dlCollaboratorScore query rest

/-- The contained-recipe-title loop of `scoreDishList`: first sampled recipe
whose title scores positively. -/
def dlRecipeTitleScore (query : String) : List DLRecipeView → ℚ
  | [] => 0
  | r :: rest =>
    let recipeScore := calculateTextScore query (some r.title) ⟨35, 30, 25, 18⟩
    if 0 < recipeScore then recipeScore else dlRecipeTitleScore query rest

/-- Inner ingredient loop of `scoreDishList` over one sampled recipe. -/
def dlIngredientScoreOne (query : String) : List Ingredient → ℚ
  | [] => 0
  | ing :: rest =>
    match ingredientTextOf ing with
    | some t =>
      if t = "" then dlIngredientScoreOne query rest
      else
        let ingredientScore := calculateTextScore query (some t) ⟨30, 25, 20, 15⟩
        if 0 < ingredientScore then ingredientScore
        else dlIngredientScoreOne query rest
    | none => dlIngredientScoreOne query rest

/-- Outer ingredient loop of `scoreDishList`: stops at the first sampled
recipe yielding any positive ingredient match. -/
def dlRecipesIngredientScore (query : String) : List DLRecipeView → ℚ
  | [] => 0
  | r :: rest =>
    let s := dlIngredientScoreOne query r.ingredients
    if 0 < s then s else dlRecipesIngredientScore query rest

/-- The additive text part of `scoreDishList`. -/
def dishListBaseScore (d : DishListCandidate) (query : String) : ℚ :=
  calculateTextScore query (some d.title) ⟨100, 90, 80, 60⟩
    + calculateTextScore query
        (some (displayNameOf d.owner.firstName d.owner.lastName)) ⟨60, 50, 45, 35⟩
    + calculateTextScore query d.owner.username ⟨55, 45, 40, 30⟩
    + dlCollaboratorScore query d.collaborators
    + dlRecipeTitleScore query d.recipes
    + dlRecipesIngredientScore query d.recipes
    + calculateTextScore query d.description ⟨25, 20, 18, 15⟩

/-- `scoreDishList`: base text score, social boosts (gated at base 50 and
capped at +10 on the ALL tab; unconditional +20 on the DISHLISTS tab), a
popularity boost whenever the running score is ≥ 50 or on the dedicated
tab, then the recency boost. -/
def scoreDishList (now : Int) (log10p1 : Nat → ℚ) (d : DishListCandidate)
    (query : String) (currentUserId : String)
    (followingIds followedDishListIds : List String) (isAllTab : Bool) :
    ScoredDishList :=
  let base := dishListBaseScore d query
  let isFollowing := followedDishListIds.contains d.id
  let isCollaborator := d.collaborators.any (fun c => c.userId = currentUserId)
  let withSocial :=
    if isAllTab then
      if 50 ≤ base then
        base + min 10 ((if isFollowing then (10 : ℚ) else 0)
          + (if followingIds.contains d.ownerId then 8 else 0))
      else base
    else
      base + (if isFollowing then (20 : ℚ) else 0)
  let withPopularity :=
    if 50 ≤ withSocial ∨ ¬isAllTab then
      withSocial + calculatePopularityBoost log10p1 d.followerCount 15
    else withSocial
  let score := withPopularity + calculateRecencyBoost now d.updatedAt 5
  { id := d.id, title := d.title, description := d.description,
    visibility := d.visibility, recipeCount := d.recipeCount,
    followerCount := d.followerCount, owner := d.owner,
    isFollowing := isFollowing, isCollaborator := isCollaborator,
    score := score }

/-! ## Data-store query predicates (`prisma` where-clauses) -/

/-- `{ field: { contains: query, mode: "insensitive" } }`. -/
def containsInsensitive (hay needle : String) : Bool :=
  containsChars (jsToLower hay).data (jsToLower needle).data

/-- The same filter on a nullable column (`null` never matches). -/
def optContainsInsensitive (hay : Option String) (needle : String) : Bool :=
  match hay with
  | some h => containsInsensitive h needle
  | none => false

/-- The `user.findMany` where-clause of `searchUsers`: exclude self, and
match username / first name / last name case-insensitively. -/
def userWhere (currentUserId query : String) (u : User) : Bool :=
  u.uid ≠ currentUserId
    && (optContainsInsensitive u.username query
      || optContainsInsensitive u.firstName query
      || optContainsInsensitive u.lastName query)

/-- The access-control disjunction used for dish lists: public, owned,
collaborated or followed. -/
def dishListAccessOk (currentUserId : String) (d : DishList) : Bool :=
  d.visibility = "PUBLIC" || d.ownerId = currentUserId
    || d.collaborators.any (fun c => c.userId = currentUserId)
    || d.followerIds.contains currentUserId

/-- Recipes of a dish list, in relation-row order (join against the recipe
table). -/
def dishListRecipeRows (db : DB) (d : DishList) : List Recipe :=
  d.recipeIds.filterMap (fun rid => db.recipes.find? (fun r => r.id = rid))

/-- The `recipe.findMany` where-clause of `searchRecipes`: a text-match
disjunction, and membership in some accessible dish list. -/
def recipeWhere (db : DB) (accessibleDishListIds : List String)
    (query : String) (r : Recipe) : Bool :=
  (containsInsensitive r.title query
    || optContainsInsensitive r.description query
    || r.tags.contains query
    || r.tags.contains (jsToLower query))
    && db.dishLists.any
        (fun d => d.recipeIds.contains r.id && accessibleDishListIds.contains d.id)

/-- The `dishList.findMany` where-clause of `searchDishLists`: access
control AND a text-match disjunction over title, description, owner fields
and contained recipe titles. -/
def dishListWhere (db : DB) (currentUserId query : String) (d : DishList) : Bool :=
  dishListAccessOk currentUserId d
    && (containsInsensitive d.title query
      || optContainsInsensitive d.description query
      || optContainsInsensitive d.owner.username query
      || optContainsInsensitive d.owner.firstName query
      || optContainsInsensitive d.owner.lastName query
      || (dishListRecipeRows db d).any (fun r => containsInsensitive r.title query))

/-- Assemble the object `scoreDishList` receives from a `dishList` row: the
included relations sample the first 10 `recipes` rows, `_count` counts the
full relations. -/
def dishListCandidate (db : DB) (d : DishList) : DishListCandidate :=
  { id := d.id, title := d.title, description := d.description,
    visibility := d.visibility, ownerId := d.ownerId, owner := d.owner,
    collaborators := d.collaborators,
    recipes := ((d.recipeIds.take 10).filterMap
        (fun rid => db.recipes.find? (fun r => r.id = rid))).map
      (fun r => { title := r.title, ingredients := r.ingredients }),
    recipeCount := d.recipeIds.length,
    followerCount := d.followerIds.length,
    updatedAt := d.updatedAt }

/-! ## Sorting and pagination -/

/-- The `searchUsers` sort comparator: score descending, then (dedicated tab
only) followed users first, then username `localeCompare`. -/
def userCmp (isAllTab : Bool) (a b : ScoredUser) : ℚ :=
  if b.score ≠ a.score then b.score - a.score
  else if ¬isAllTab ∧ a.isFollowing ≠ b.isFollowing then
    (if a.isFollowing then -1 else 1)
  else ((strCmpChars (a.username.getD "").data (b.username.getD "").data : Int) : ℚ)

/-- The `searchRecipes` / `searchDishLists` comparator: score descending,
then identifier ascending. -/
def scoreIdCmp (score : α → ℚ) (ident : α → String) (a b : α) : ℚ :=
  if (score b) ≠ (score a) then score b - score a
  else ((strCmpChars (ident a).data (ident b).data : Int) : ℚ)

/-- JavaScript's stable comparator sort, modelled as a stable insertion
sort: an element goes before another exactly when the comparator is ≤ 0. -/
def jsSortBy (cmp : α → α → ℚ) (l : List α) : List α :=
  List.insertionSort (fun a b => cmp a b ≤ 0) l

/-- Lines 726–733 / 810–817 / 931–938 of `search.ts`: cursor-based
pagination, identical in the three category searches.  An empty-string
cursor is falsy; a found cursor starts the page just after it; a stale
cursor falls through to the first page. -/
def applyCursor (scored : List α) (getId : α → String) (limit : Int)
    (cursor : Option String) : List α :=
  match cursor with
  | some c =>
    if c = "" then jsSlice scored 0 limit
    else
      match jsFindIndex (fun x => getId x = c) scored with
      | some i => jsSlice scored ((i : Int) + 1) ((i : Int) + 1 + limit)
      | none => jsSlice scored 0 limit
  | none => jsSlice scored 0 limit

/-! ## Category search functions -/

/-- The scored, threshold-filtered, sorted candidate list of `searchUsers`
(everything before cursor pagination). -/
def scoredSortedUsers (db : DB) (query currentUserId : String)
    (followingIds followerIds : List String) (isAllTab : Bool)
    (limit : Int) : List ScoredUser :=
  let minScore : ℚ := if isAllTab then 30 else 40
  let users := dbTake (limit * 3) (db.users.filter (userWhere currentUserId query))
  jsSortBy (userCmp isAllTab)
    ((users.map (fun u =>
        scoreUser u query currentUserId followingIds followerIds isAllTab)).filter
      (fun u => minScore ≤ u.score))

/-- `searchUsers`. -/
def searchUsers (db : DB) (query currentUserId : String)
    (followingIds followerIds : List String) (isAllTab : Bool)
    (limit : Int) (cursor : Option String) : List ScoredUser :=
  applyCursor
    (scoredSortedUsers db query currentUserId followingIds followerIds isAllTab limit)
    (fun u => u.uid) limit cursor

/-- The accessible dish-list ids fetched at the top of `searchRecipes`. -/
def accessibleDishListIdsOf (db : DB) (currentUserId : String) : List String :=
  (db.dishLists.filter (dishListAccessOk currentUserId)).map (fun d => d.id)

/-- The scored, threshold-filtered, sorted candidate list of
`searchRecipes`. -/
def scoredSortedRecipes (db : DB) (now : Int) (query currentUserId : String)
    (followingIds savedRecipeIds : List String) (isAllTab : Bool)
    (limit : Int) : List ScoredRecipe :=
  let minScore : ℚ := 30
  let accessibleDishListIds := accessibleDishListIdsOf db currentUserId
  let recipes := dbTake (limit * 3)
    (db.recipes.filter (recipeWhere db accessibleDishListIds query))
  jsSortBy (scoreIdCmp (fun r => r.score) (fun r => r.id))
    ((recipes.map (fun r =>
        scoreRecipe now r query currentUserId followingIds savedRecipeIds isAllTab)).filter
      (fun r => minScore ≤ r.score))

/-- `searchRecipes` (the `followedDishListIds` parameter is accepted but
unused, as in the source). -/
def searchRecipes (db : DB) (now : Int) (query currentUserId : String)
    (followingIds savedRecipeIds followedDishListIds : List String)
    (isAllTab : Bool) (limit : Int) (cursor : Option String) : List ScoredRecipe :=
  applyCursor
    (scoredSortedRecipes db now query currentUserId followingIds savedRecipeIds
      isAllTab limit)
    (fun r => r.id) limit cursor

/-- The scored, threshold-filtered, sorted candidate list of
`searchDishLists`. -/
def scoredSortedDishLists (db : DB) (now : Int) (log10p1 : Nat → ℚ)
    (query currentUserId : String)
    (followingIds followedDishListIds : List String) (isAllTab : Bool)
    (limit : Int) : List ScoredDishList :=
  let minScore : ℚ := if isAllTab then 30 else 35
  let rows := dbTake (limit * 3)
    (db.dishLists.filter (dishListWhere db currentUserId query))
  jsSortBy (scoreIdCmp (fun d => d.score) (fun d => d.id))
    ((rows.map (fun d =>
        scoreDishList now log10p1 (dishListCandidate db d) query currentUserId
          followingIds followedDishListIds isAllTab)).filter
      (fun d => minScore ≤ d.score))

/-- `searchDishLists`. -/
def searchDishLists (db : DB) (now : Int) (log10p1 : Nat → ℚ)
    (query currentUserId : String)
    (followingIds followedDishListIds : List String) (isAllTab : Bool)
    (limit : Int) (cursor : Option String) : List ScoredDishList :=
  applyCursor
    (scoredSortedDishLists db now log10p1 query currentUserId followingIds
      followedDishListIds isAllTab limit)
    (fun d => d.id) limit cursor

/-! ## Search orchestrator (`router.get("/")`) -/

/-- A thrown JavaScript exception reaching the route's `catch` (surfaced as
a 500 response). -/
inductive JsError where
  | typeError
deriving DecidableEq, Repr

/-- The JSON response body. -/
structure SearchResponse where
  users : List ScoredUser
  recipes : List ScoredRecipe
  dishLists : List ScoredDishList
  nextCursor : Option String
deriving DecidableEq, Repr

/-- `Math.min(parseInt(limit as string) || 20, 50)` with the `"20"`
default for an absent parameter. -/
def effectivePageLimit (limit : Option String) : Int :=
  min (jsFalsyOr (jsParseInt (limit.getD "20")) 20) 50

/-- Social context: ids the requester follows. -/
def followingIdsOf (db : DB) (userId : String) : List String :=
  (db.userFollows.filter (fun f => followRowFollower f = userId)).map followRowFollowing

/-- Social context: ids following the requester. -/
def followerIdsOf (db : DB) (userId : String) : List String :=
  (db.userFollows.filter (fun f => followRowFollowing f = userId)).map followRowFollower

/-- Social context: dish lists the requester follows (`dishListFollower`
rows are carried on each dish list as `followerIds`). -/
def followedDishListIdsOf (db : DB) (userId : String) : List String :=
  (db.dishLists.filter (fun d => d.followerIds.contains userId)).map (fun d => d.id)

/-- Social context: recipes in any dish list the requester owns or
collaborates on (`dishListRecipe` rows are carried as `recipeIds`). -/
def savedRecipeIdsOf (db : DB) (userId : String) : List String :=
  (db.dishLists.filter (fun d =>
      d.ownerId = userId || d.collaborators.any (fun c => c.userId = userId))).flatMap
    (fun d => d.recipeIds)

/-- Lines 602–604 / 626–628 / 649–651 of `search.ts`, identical in the
three dedicated-tab branches: detect a further page via the extra fetched
item, slice to the page limit, and read `results[results.length - 1]` for
the next cursor — which throws a `TypeError` when `results` is empty. -/
def paginateTab (full : List α) (pageLimit : Int) (getId : α → String) :
    Except JsError (List α × Option String) :=
  let hasMore : Bool := pageLimit < (full.length : Int)
  let results := if hasMore then jsSlice full 0 pageLimit else full
  if hasMore then
    match results.getLast? with
    | some last => .ok (results, some (getId last))
    | none => .error .typeError
  else
    .ok (results, none)

/-- The `GET /search` handler.  Request parameters are `Option String`
(absent query-string values are `undefined`); the handler's `catch` branch
is the `Except.error` case.  The social-context sets are fetched before the
tab dispatch in the source; being pure, they are referenced here at their
use sites through the `...Of` definitions above, which is observationally
identical. -/
def handleSearch (db : DB) (now : Int) (log10p1 : Nat → ℚ) (userId : String)
    (q tab cursor limit : Option String) : Except JsError SearchResponse :=
  let tabV := tab.getD "all"
  let query := jsTrim (q.getD "")
  let pageLimit := effectivePageLimit limit
  if query = "" then
    .ok { users := [], recipes := [], dishLists := [], nextCursor := none }
  else if tabV = "all" then
    let users := searchUsers db query userId (followingIdsOf db userId)
      (followerIdsOf db userId) true 10 none
    let recipes := searchRecipes db now query userId (followingIdsOf db userId)
      (savedRecipeIdsOf db userId) (followedDishListIdsOf db userId) true 10 none
    let dishLists := searchDishLists db now log10p1 query userId
      (followingIdsOf db userId) (followedDishListIdsOf db userId) true 10 none
    .ok { users := users.map (fun u => { u with score := u.score * 1 }),
          recipes := recipes.map (fun r => { r with score := r.score * (9 / 10) }),
          dishLists := dishLists.map (fun d => { d with score := d.score * (19 / 20) }),
          nextCursor := none }
  else if tabV = "users" then
    match paginateTab
        (searchUsers db query userId (followingIdsOf db userId)
          (followerIdsOf db userId) false (pageLimit + 1) cursor)
        pageLimit (fun u => u.uid) with
    | .ok (results, nextCursor) =>
      .ok { users := results, recipes := [], dishLists := [], nextCursor := nextCursor }
    | .error e => .error e
  else if tabV = "recipes" then
    match paginateTab
        (searchRecipes db now query userId (followingIdsOf db userId)
          (savedRecipeIdsOf db userId) (followedDishListIdsOf db userId) false
          (pageLimit + 1) cursor)
        pageLimit (fun r => r.id) with
    | .ok (results, nextCursor) =>
      .ok { users := [], recipes := results, dishLists := [], nextCursor := nextCursor }
    | .error e => .error e
  else if tabV = "dishlists" then
    match paginateTab
        (searchDishLists db now log10p1 query userId (followingIdsOf db userId)
          (followedDishListIdsOf db userId) false (pageLimit + 1) cursor)
        pageLimit (fun d => d.id) with
    | .ok (results, nextCursor) =>
      .ok { users := [], recipes := [], dishLists := results, nextCursor := nextCursor }
    | .error e => .error e
  else
    .ok { users := [], recipes := [], dishLists := [], nextCursor := none }

/-! ## Concrete sample data (used by witnesses and counterexamples) -/

-- `Rat.add`, `Rat.mul`, `Rat.inv` and `Rat.sub` are `@[irreducible]` in
-- Batteries for elaboration performance; the kernel ignores reducibility, and
-- restoring it locally lets `decide`/`rfl` evaluate concrete searches.
attribute [local semireducible] Rat.add Rat.mul Rat.inv Rat.sub

def sampleCreatorBob : Creator :=
  { uid := "u2", username := some "bob", firstName := some "Bob", lastName := none }

/-- A tiny data store: one other user, one public dish list owned by that
user, containing one recipe. -/
def sampleDB : DB :=
  { users := [{ uid := "u2", username := some "bob", firstName := some "Bob",
                lastName := none, avatarUrl := none }],
    recipes := [{ id := "r1", title := "Pasta Carbonara", description := none,
                  imageUrl := none, prepTime := none, cookTime := none,
                  servings := none, tags := [], ingredients := [],
                  creatorId := "u2", creator := sampleCreatorBob, updatedAt := 0 }],
    dishLists := [{ id := "d1", title := "Pasta Favorites", description := none,
                    visibility := "PUBLIC", ownerId := "u2", owner := sampleCreatorBob,
                    collaborators := [], recipeIds := ["r1"], followerIds := [],
                    updatedAt := 0 }],
    userFollows := [] }

/-- What `searchUsers` produces for query `"bob"` in `sampleDB`:
display name `"Bob"` and username `"bob"` are both exact matches. -/
def sampleScoredBob : ScoredUser :=
  { uid := "u2", username := some "bob", firstName := some "Bob", lastName := none,
    avatarUrl := none, isFollowing := false, isMutual := false, score := 200 }

/-- What `searchRecipes` produces for query `"pasta"` in `sampleDB` (title
`startsWith` tier, 90; the timestamp is far in the past, so no recency). -/
def sampleScoredRecipe : ScoredRecipe :=
  { id := "r1", title := "Pasta Carbonara", description := none, imageUrl := none,
    prepTime := none, cookTime := none, servings := none, tags := [],
    creatorId := "u2", creator := sampleCreatorBob, score := 90 }

/-- What `searchDishLists` produces for query `"pasta"` in `sampleDB`
(title 90 + contained recipe title 30). -/
def sampleScoredDishList : ScoredDishList :=
  { id := "d1", title := "Pasta Favorites", description := none,
    visibility := "PUBLIC", recipeCount := 1, followerCount := 0,
    owner := sampleCreatorBob, isFollowing := false, isCollaborator := false,
    score := 120 }

/-- A recipe whose first tag matches query `"pasta"` at the `startsWith`
tier (40) while a later tag is an exact match (50); the other fields do
not match the query. -/
def cexRecipe : Recipe :=
  { id := "r9", title := "zzz", description := none, imageUrl := none,
    prepTime := none, cookTime := none, servings := none,
    tags := ["pasta salad", "pasta"], ingredients := [], creatorId := "u2",
    creator := { uid := "u2", username := none, firstName := none, lastName := none },
    updatedAt := 0 }

/-! ## Helper lemmas about the primitives -/

theorem jsResolveIdx_nonneg (len : Nat) (i : Int) (h : 0 ≤ i) :
    (jsResolveIdx len i : Int) = min i (len : Int) := by
  unfold jsResolveIdx
  rw [if_neg (by omega)]
  omega

theorem jsSlice_subset {α : Type} (l : List α) (s e : Int) : jsSlice l s e ⊆ l :=
  fun _ ha => List.take_subset _ _ (List.drop_subset _ _ ha)

theorem jsSlice_zero {α : Type} (l : List α) (k : Int) (hk : 0 ≤ k) :
    jsSlice l 0 k = l.take k.toNat := by
  unfold jsSlice
  have h0 : jsResolveIdx l.length 0 = 0 := by
    have := jsResolveIdx_nonneg l.length 0 le_rfl
    omega
  have hk' := jsResolveIdx_nonneg l.length k hk
  rw [h0, List.drop_zero]
  rcases le_or_lt k (l.length : Int) with h | h
  · congr 1
    omega
  · rw [show jsResolveIdx l.length k = l.length by omega, List.take_length,
      List.take_of_length_le (by omega)]

theorem jsSlice_length_le {α : Type} (l : List α) (s k : Int) (hs : 0 ≤ s)
    (hk : 0 ≤ k) : ((jsSlice l s (s + k)).length : Int) ≤ k := by
  unfold jsSlice
  rw [List.length_drop, List.length_take]
  have h1 := jsResolveIdx_nonneg l.length s hs
  have h2 := jsResolveIdx_nonneg l.length (s + k) (by omega)
  omega

theorem jsSlice_window {α : Type} (l : List α) (s k : Int) (hs : 0 ≤ s)
    (hsl : s ≤ (l.length : Int)) (hk : 0 ≤ k) :
    jsSlice l s (s + k) = (l.drop s.toNat).take k.toNat := by
  unfold jsSlice
  have h1 := jsResolveIdx_nonneg l.length s hs
  have h2 := jsResolveIdx_nonneg l.length (s + k) (by omega)
  rw [List.drop_take, show jsResolveIdx l.length s = s.toNat by omega]
  rcases le_or_lt (s + k) (l.length : Int) with h | h
  · congr 1
    omega
  · have hdrop : (l.drop s.toNat).length = l.length - s.toNat := List.length_drop _ _
    rw [show jsResolveIdx l.length (s + k) - s.toNat = (l.drop s.toNat).length by omega,
      List.take_length, List.take_of_length_le (by omega)]

theorem dbTake_subset {α : Type} (n : Int) (l : List α) : dbTake n l ⊆ l := by
  unfold dbTake
  split
  · exact List.take_subset _ _
  · intro a ha
    rw [List.mem_reverse] at ha
    have := List.take_subset _ _ ha
    rwa [List.mem_reverse] at this

theorem mem_jsSortBy {α : Type} (cmp : α → α → ℚ) (l : List α) (a : α) :
    a ∈ jsSortBy cmp l ↔ a ∈ l :=
  List.mem_insertionSort _

theorem jsFindIndexAux_bound {α : Type} (p : α → Bool) :
    ∀ (l : List α) (k i : Nat), jsFindIndexAux p l k = some i → k ≤ i ∧ i < k + l.length := by
  intro l
  induction l with
  | nil => intro k i h; simp [jsFindIndexAux] at h
  | cons x xs ih =>
    intro k i h
    simp only [jsFindIndexAux] at h
    by_cases hp : p x
    · rw [if_pos hp] at h
      injection h with h
      subst h
      simp only [List.length_cons]
      omega
    · rw [if_neg hp] at h
      have := ih (k + 1) i h
      simp only [List.length_cons]
      omega

theorem jsFindIndex_lt_length {α : Type} (p : α → Bool) (l : List α) (i : Nat)
    (h : jsFindIndex p l = some i) : i < l.length := by
  have := jsFindIndexAux_bound p l 0 i h
  omega

theorem applyCursor_subset {α : Type} (l : List α) (getId : α → String)
    (lim : Int) (cur : Option String) : applyCursor l getId lim cur ⊆ l := by
  unfold applyCursor
  repeat' split
  all_goals exact jsSlice_subset _ _ _

theorem applyCursor_length_le {α : Type} (l : List α) (getId : α → String)
    (lim : Int) (cur : Option String) (h : 0 ≤ lim) :
    ((applyCursor l getId lim cur).length : Int) ≤ lim := by
  unfold applyCursor
  have hz : ((jsSlice l 0 lim).length : Int) ≤ lim := by
    have := jsSlice_length_le l 0 lim le_rfl h
    rwa [zero_add] at this
  repeat' split
  all_goals first
    | exact hz
    | exact jsSlice_length_le l _ lim (by omega) h

/-! ## Helper lemmas about the category searches -/

theorem mem_scoredSortedUsers (db : DB) (q cid : String)
    (fids flids : List String) (b : Bool) (lim : Int) (su : ScoredUser)
    (h : su ∈ scoredSortedUsers db q cid fids flids b lim) :
    (if b then (30 : ℚ) else 40) ≤ su.score
      ∧ ∃ u, u ∈ db.users ∧ userWhere cid q u = true
          ∧ su = scoreUser u q cid fids flids b := by
  unfold scoredSortedUsers at h
  rw [mem_jsSortBy] at h
  rw [List.mem_filter] at h
  obtain ⟨hmem, hscore⟩ := h
  refine ⟨of_decide_eq_true hscore, ?_⟩
  rw [List.mem_map] at hmem
  obtain ⟨u, hu, hequ⟩ := hmem
  have hu' := dbTake_subset _ _ hu
  rw [List.mem_filter] at hu'
  exact ⟨u, hu'.1, hu'.2, hequ.symm⟩

theorem mem_scoredSortedRecipes (db : DB) (now : Int) (q cid : String)
    (fids sids : List String) (b : Bool) (lim : Int) (sr : ScoredRecipe)
    (h : sr ∈ scoredSortedRecipes db now q cid fids sids b lim) :
    (30 : ℚ) ≤ sr.score
      ∧ ∃ r, r ∈ db.recipes
          ∧ recipeWhere db (accessibleDishListIdsOf db cid) q r = true
          ∧ sr = scoreRecipe now r q cid fids sids b := by
  unfold scoredSortedRecipes at h
  rw [mem_jsSortBy] at h
  rw [List.mem_filter] at h
  obtain ⟨hmem, hscore⟩ := h
  refine ⟨of_decide_eq_true hscore, ?_⟩
  rw [List.mem_map] at hmem
  obtain ⟨r, hr, heqr⟩ := hmem
  have hr' := dbTake_subset _ _ hr
  rw [List.mem_filter] at hr'
  exact ⟨r, hr'.1, hr'.2, heqr.symm⟩

theorem mem_scoredSortedDishLists (db : DB) (now : Int) (lg : Nat → ℚ)
    (q cid : String) (fids fdids : List String) (b : Bool) (lim : Int)
    (sd : ScoredDishList)
    (h : sd ∈ scoredSortedDishLists db now lg q cid fids fdids b lim) :
    (if b then (30 : ℚ) else 35) ≤ sd.score
      ∧ ∃ d, d ∈ db.dishLists ∧ dishListWhere db cid q d = true
          ∧ sd = scoreDishList now lg (dishListCandidate db d) q cid fids fdids b := by
  unfold scoredSortedDishLists at h
  rw [mem_jsSortBy] at h
  rw [List.mem_filter] at h
  obtain ⟨hmem, hscore⟩ := h
  refine ⟨of_decide_eq_true hscore, ?_⟩
  rw [List.mem_map] at hmem
  obtain ⟨d, hd, heqd⟩ := hmem
  have hd' := dbTake_subset _ _ hd
  rw [List.mem_filter] at hd'
  exact ⟨d, hd'.1, hd'.2, heqd.symm⟩

theorem mem_searchUsers (db : DB) (q cid : String) (fids flids : List String)
    (b : Bool) (lim : Int) (cur : Option String) (su : ScoredUser)
    (h : su ∈ searchUsers db q cid fids flids b lim cur) :
    su ∈ scoredSortedUsers db q cid fids flids b lim :=
  applyCursor_subset _ _ _ _ h

theorem mem_searchRecipes (db : DB) (now : Int) (q cid : String)
    (fids sids fdids : List String) (b : Bool) (lim : Int)
    (cur : Option String) (sr : ScoredRecipe)
    (h : sr ∈ searchRecipes db now q cid fids sids fdids b lim cur) :
    sr ∈ scoredSortedRecipes db now q cid fids sids b lim :=
  applyCursor_subset _ _ _ _ h

theorem mem_searchDishLists (db : DB) (now : Int) (lg : Nat → ℚ) (q cid : String)
    (fids fdids : List String) (b : Bool) (lim : Int)
    (cur : Option String) (sd : ScoredDishList)
    (h : sd ∈ searchDishLists db now lg q cid fids fdids b lim cur) :
    sd ∈ scoredSortedDishLists db now lg q cid fids fdids b lim :=
  applyCursor_subset _ _ _ _ h

/-! ## Score decomposition lemmas -/

/-- The user score as a closed formula: additive text part plus the
tab-dependent social bonus. -/
theorem scoreUser_score (u : User) (q cid : String)
    (fids flids : List String) (b : Bool) :
    (scoreUser u q cid fids flids b).score =
      (calculateTextScore q (some (displayNameOf u.firstName u.lastName)) ⟨100, 90, 80, 60⟩
        + calculateTextScore q u.username ⟨100, 70, 65, 50⟩)
      + (if b then
          (if 50 ≤ calculateTextScore q (some (displayNameOf u.firstName u.lastName)) ⟨100, 90, 80, 60⟩
              + calculateTextScore q u.username ⟨100, 70, 65, 50⟩ then
            (if fids.contains u.uid && flids.contains u.uid then (20 : ℚ)
             else if fids.contains u.uid then 15 else 0)
          else 0)
        else
          (if fids.contains u.uid && flids.contains u.uid then (40 : ℚ)
           else if fids.contains u.uid then 30 else 0)) := by
  unfold scoreUser
  rcases b with _ | _
  · simp only [Bool.false_eq_true, if_false]
  · simp only [if_true]
    split
    · rfl
    · simp

theorem scoreUser_uid (u : User) (q cid : String) (fids flids : List String)
    (b : Bool) : (scoreUser u q cid fids flids b).uid = u.uid := rfl

theorem scoreUser_flags (u : User) (q cid : String) (fids flids : List String)
    (b : Bool) :
    (scoreUser u q cid fids flids b).isFollowing = fids.contains u.uid
      ∧ (scoreUser u q cid fids flids b).isMutual
          = (fids.contains u.uid && flids.contains u.uid) := ⟨rfl, rfl⟩

/-- The recipe score as a closed formula. -/
theorem scoreRecipe_score (now : Int) (r : Recipe) (q cid : String)
    (fids sids : List String) (b : Bool) :
    (scoreRecipe now r q cid fids sids b).score =
      recipeBaseScore r q
      + (if b then
          (if 50 ≤ recipeBaseScore r q then
            min 10 ((if sids.contains r.id then (10 : ℚ) else 0)
              + (if fids.contains r.creatorId then 6 else 0))
          else 0)
        else
          (if sids.contains r.id then (15 : ℚ) else 0)
            + (if fids.contains r.creatorId then 10 else 0))
      + calculateRecencyBoost now r.updatedAt 5 := by
  unfold scoreRecipe
  rcases b with _ | _
  · simp only [Bool.false_eq_true, if_false]
    ring
  · simp only [if_true]
    split
    · rfl
    · simp

/-- The dish-list score as a closed formula (on the ALL tab). -/
theorem scoreDishList_score_all (now : Int) (lg : Nat → ℚ) (d : DishListCandidate)
    (q cid : String) (fids fdids : List String) :
    (scoreDishList now lg d q cid fids fdids true).score =
      (let base := dishListBaseScore d q
       let withSocial :=
         if 50 ≤ base then
           base + min 10 ((if fdids.contains d.id then (10 : ℚ) else 0)
             + (if fids.contains d.ownerId then 8 else 0))
         else base
       (if 50 ≤ withSocial then
          withSocial + calculatePopularityBoost lg d.followerCount 15
        else withSocial)
         + calculateRecencyBoost now d.updatedAt 5) := by
  unfold scoreDishList
  simp only [if_true, not_true, or_false]

/-! ## Pagination and orchestrator step lemmas -/

theorem paginateTab_spec {α : Type} (full : List α) (pl : Int) (gid : α → String)
    (h : 1 ≤ pl) :
    ∃ res nc, paginateTab full pl gid = .ok (res, nc)
      ∧ (res.length : Int) ≤ pl
      ∧ (nc ≠ none ↔ pl < (full.length : Int))
      ∧ (pl < (full.length : Int) →
          res = full.take pl.toNat ∧ nc = res.getLast?.map gid)
      ∧ ((full.length : Int) ≤ pl → res = full ∧ nc = none) := by
  by_cases hm : pl < (full.length : Int)
  · have hres : jsSlice full 0 pl = full.take pl.toNat := jsSlice_zero full pl (by omega)
    have hne : full.take pl.toNat ≠ [] := by
      have hlen : (full.take pl.toNat).length = min pl.toNat full.length :=
        List.length_take _ _
      intro hcon
      rw [hcon] at hlen
      simp only [List.length_nil] at hlen
      omega
    obtain ⟨x, hx⟩ := Option.isSome_iff_exists.mp (List.getLast?_isSome.mpr hne)
    refine ⟨full.take pl.toNat, some (gid x), ?_, ?_, ?_, ?_, ?_⟩
    · unfold paginateTab
      simp only [hm, decide_True, if_true, hres, hx]
    · have hlen : (full.take pl.toNat).length = min pl.toNat full.length :=
        List.length_take _ _
      omega
    · simp [hm]
    · exact fun _ => ⟨rfl, by rw [hx]; rfl⟩
    · intro hcon
      omega
  · refine ⟨full, none, ?_, by omega, by simp [hm], fun hcon => absurd hcon hm, fun _ => ⟨rfl, rfl⟩⟩
    unfold paginateTab
    simp only [hm, decide_False, Bool.false_eq_true, if_false]

theorem handleSearch_emptyQuery (db : DB) (now : Int) (lg : Nat → ℚ)
    (uid : String) (q tab cursor limit : Option String)
    (hq : jsTrim (q.getD "") = "") :
    handleSearch db now lg uid q tab cursor limit =
      .ok { users := [], recipes := [], dishLists := [], nextCursor := none } := by
  unfold handleSearch
  rw [if_pos hq]

theorem handleSearch_usersTab (db : DB) (now : Int) (lg : Nat → ℚ)
    (uid q : String) (cursor limit : Option String) (hq : jsTrim q ≠ "") :
    handleSearch db now lg uid (some q) (some "users") cursor limit =
      (match paginateTab
          (searchUsers db (jsTrim q) uid (followingIdsOf db uid)
            (followerIdsOf db uid) false (effectivePageLimit limit + 1) cursor)
          (effectivePageLimit limit) (fun u => u.uid) with
      | .ok (results, nextCursor) =>
        .ok { users := results, recipes := [], dishLists := [],
              nextCursor := nextCursor }
      | .error e => .error e) := by
  unfold handleSearch
  simp only [Option.getD_some]
  rw [if_neg hq, if_neg (by decide : ¬("users" : String) = "all")]
  simp only [if_true]

theorem handleSearch_recipesTab (db : DB) (now : Int) (lg : Nat → ℚ)
    (uid q : String) (cursor limit : Option String) (hq : jsTrim q ≠ "") :
    handleSearch db now lg uid (some q) (some "recipes") cursor limit =
      (match paginateTab
          (searchRecipes db now (jsTrim q) uid (followingIdsOf db uid)
            (savedRecipeIdsOf db uid) (followedDishListIdsOf db uid) false
            (effectivePageLimit limit + 1) cursor)
          (effectivePageLimit limit) (fun r => r.id) with
      | .ok (results, nextCursor) =>
        .ok { users := [], recipes := results, dishLists := [],
              nextCursor := nextCursor }
      | .error e => .error e) := by
  unfold handleSearch
  simp only [Option.getD_some]
  rw [if_neg hq, if_neg (by decide : ¬("recipes" : String) = "all"),
    if_neg (by decide : ¬("recipes" : String) = "users")]
  simp only [if_true]

theorem handleSearch_dishListsTab (db : DB) (now : Int) (lg : Nat → ℚ)
    (uid q : String) (cursor limit : Option String) (hq : jsTrim q ≠ "") :
    handleSearch db now lg uid (some q) (some "dishlists") cursor limit =
      (match paginateTab
          (searchDishLists db now lg (jsTrim q) uid (followingIdsOf db uid)
            (followedDishListIdsOf db uid) false
            (effectivePageLimit limit + 1) cursor)
          (effectivePageLimit limit) (fun d => d.id) with
      | .ok (results, nextCursor) =>
        .ok { users := [], recipes := [], dishLists := results,
              nextCursor := nextCursor }
      | .error e => .error e) := by
  unfold handleSearch
  simp only [Option.getD_some]
  rw [if_neg hq, if_neg (by decide : ¬("dishlists" : String) = "all"),
    if_neg (by decide : ¬("dishlists" : String) = "users"),
    if_neg (by decide : ¬("dishlists" : String) = "recipes")]
  simp only [if_true]

theorem handleSearch_allTab (db : DB) (now : Int) (lg : Nat → ℚ)
    (uid q : String) (cursor limit : Option String) (hq : jsTrim q ≠ "") :
    handleSearch db now lg uid (some q) (some "all") cursor limit =
      Except.ok
        { users := List.map (fun u => { u with score := u.score * 1 })
            (searchUsers db (jsTrim q) uid (followingIdsOf db uid)
              (followerIdsOf db uid) true 10 none),
          recipes := List.map (fun r => { r with score := r.score * (9 / 10) })
            (searchRecipes db now (jsTrim q) uid (followingIdsOf db uid)
              (savedRecipeIdsOf db uid) (followedDishListIdsOf db uid) true 10 none),
          dishLists := List.map (fun d => { d with score := d.score * (19 / 20) })
            (searchDishLists db now lg (jsTrim q) uid (followingIdsOf db uid)
              (followedDishListIdsOf db uid) true 10 none),
          nextCursor := none } := by
  unfold handleSearch
  simp only [Option.getD_some]
  rw [if_neg hq]
  simp only [if_true]

/-! ## Claim theorems -/

/-- C1 counterexample: for the query `" "` and the field `""`, both
normalise to `""`, so the exact tier applies and the claim as stated
demands the exact weight (100), but `calculateTextScore` returns 0: the
JavaScript guard `if (!text) return 0` treats the empty string like
`null`. -/
theorem textScore_empty_field_cex :
    jsNormalize "" = jsNormalize " "
      ∧ calculateTextScore " " (some "") ⟨100, 90, 80, 60⟩ = 0
      ∧ (100 : ℚ) ≠ 0 :=
  ⟨by decide, by decide, by decide⟩

/-- C1 (amended): `calculateTextScore` lowercases and trims both sides,
returns the weight of exactly one tier — the highest applicable among
exact, startsWith, wordMatch, contains, tried in that order — and returns
0 when the field is null **or the empty string** or no tier matches;
tiers are never summed, and two queries that agree after lowercasing and
trimming yield the same score against every field. -/
theorem textScore_tier_spec :
    (∀ q w, calculateTextScore q none w = 0)
  ∧ (∀ q w, calculateTextScore q (some "") w = 0)
  ∧ (∀ q t w, calculateTextScore q (some t) w = w.exact
      ∨ calculateTextScore q (some t) w = w.startsWith
      ∨ calculateTextScore q (some t) w = w.wordMatch
      ∨ calculateTextScore q (some t) w = w.contains
      ∨ calculateTextScore q (some t) w = 0)
  ∧ (∀ q t w, t ≠ "" → jsNormalize t = jsNormalize q →
      calculateTextScore q (some t) w = w.exact)
  ∧ (∀ q t w, t ≠ "" → jsNormalize t ≠ jsNormalize q →
      startsWithChars (jsNormalize t).data (jsNormalize q).data = true →
      calculateTextScore q (some t) w = w.startsWith)
  ∧ (∀ q t w, t ≠ "" → jsNormalize t ≠ jsNormalize q →
      startsWithChars (jsNormalize t).data (jsNormalize q).data = false →
      wordBoundaryMatch (jsNormalize q).data (jsNormalize t).data = true →
      calculateTextScore q (some t) w = w.wordMatch)
  ∧ (∀ q t w, t ≠ "" → jsNormalize t ≠ jsNormalize q →
      startsWithChars (jsNormalize t).data (jsNormalize q).data = false →
      wordBoundaryMatch (jsNormalize q).data (jsNormalize t).data = false →
      containsChars (jsNormalize t).data (jsNormalize q).data = true →
      calculateTextScore q (some t) w = w.contains)
  ∧ (∀ q t w, t ≠ "" → jsNormalize t ≠ jsNormalize q →
      startsWithChars (jsNormalize t).data (jsNormalize q).data = false →
      wordBoundaryMatch (jsNormalize q).data (jsNormalize t).data = false →
      containsChars (jsNormalize t).data (jsNormalize q).data = false →
      calculateTextScore q (some t) w = 0)
  ∧ (∀ q₁ q₂, jsNormalize q₁ = jsNormalize q₂ →
      ∀ t w, calculateTextScore q₁ t w = calculateTextScore q₂ t w) := by
  refine ⟨fun q w => rfl, fun q w => rfl, ?_, ?_, ?_, ?_, ?_, ?_, ?_⟩
  · intro q t w
    simp only [calculateTextScore]
    split_ifs <;> simp
  · intro q t w ht heq
    simp only [calculateTextScore]
    rw [if_neg ht, if_pos heq]
  · intro q t w ht hne hsw
    simp only [calculateTextScore]
    rw [if_neg ht, if_neg hne, if_pos hsw]
  · intro q t w ht hne hsw hwm
    simp only [calculateTextScore]
    rw [if_neg ht, if_neg hne, if_neg (by simp [hsw]), if_pos hwm]
  · intro q t w ht hne hsw hwm hc
    simp only [calculateTextScore]
    rw [if_neg ht, if_neg hne, if_neg (by simp [hsw]), if_neg (by simp [hwm]),
      if_pos hc]
  · intro q t w ht hne hsw hwm hc
    simp only [calculateTextScore]
    rw [if_neg ht, if_neg hne, if_neg (by simp [hsw]), if_neg (by simp [hwm]),
      if_neg (by simp [hc])]
  · intro q₁ q₂ h t w
    rcases t with _ | t
    · rfl
    · simp only [calculateTextScore, h]

/-- C1 witness: `"Pasta "` and `"pasta"` normalise identically and score
the same against `"pasta salad"`. -/
theorem textScore_tier_spec_witness :
    jsNormalize "Pasta " = jsNormalize "pasta"
      ∧ calculateTextScore "Pasta " (some "pasta salad") ⟨100, 90, 80, 60⟩
          = calculateTextScore "pasta" (some "pasta salad") ⟨100, 90, 80, 60⟩ :=
  ⟨by decide,
   textScore_tier_spec.2.2.2.2.2.2.2.2 "Pasta " "pasta" (by decide)
     (some "pasta salad") ⟨100, 90, 80, 60⟩⟩

/-- C4: the user score is the sum of the display-name match
(100/90/80/60) and the username match (100/70/65/50); the social bonus on
the ALL tab applies only when that text sum already reached 50 (+20
mutual, else +15 followed) and on the dedicated USERS tab applies
unconditionally (+40 mutual, else +30 followed); mutual means followed by
and follower of the requester. -/
theorem scoreUser_formula_spec (u : User) (q cid : String)
    (fids flids : List String) :
    (∀ b, (scoreUser u q cid fids flids b).isMutual
        = (fids.contains u.uid && flids.contains u.uid))
  ∧ (∀ b, (scoreUser u q cid fids flids b).isFollowing = fids.contains u.uid)
  ∧ ((scoreUser u q cid fids flids true).score =
      (calculateTextScore q (some (displayNameOf u.firstName u.lastName))
          ⟨100, 90, 80, 60⟩
        + calculateTextScore q u.username ⟨100, 70, 65, 50⟩)
      + (if 50 ≤ calculateTextScore q (some (displayNameOf u.firstName u.lastName))
              ⟨100, 90, 80, 60⟩
            + calculateTextScore q u.username ⟨100, 70, 65, 50⟩ then
          (if fids.contains u.uid && flids.contains u.uid then (20 : ℚ)
           else if fids.contains u.uid then 15 else 0)
        else 0))
  ∧ ((scoreUser u q cid fids flids false).score =
      (calculateTextScore q (some (displayNameOf u.firstName u.lastName))
          ⟨100, 90, 80, 60⟩
        + calculateTextScore q u.username ⟨100, 70, 65, 50⟩)
      + (if fids.contains u.uid && flids.contains u.uid then (40 : ℚ)
         else if fids.contains u.uid then 30 else 0)) := by
  refine ⟨fun b => rfl, fun b => rfl, ?_, ?_⟩
  · have h := scoreUser_score u q cid fids flids true
    simpa using h
  · have h := scoreUser_score u q cid fids flids false
    simpa using h

/-- C5 counterexample: for query `"pasta"` and `cexRecipe` (tags
`["pasta salad", "pasta"]`), the tag contribution to the recipe score —
isolated as the score difference against the same recipe without tags —
is 40 (the first matching tag, `startsWith` tier), while the
highest-scoring single tag match is 50 (`"pasta"`, exact tier): the loop
breaks at the first positive tag, not the best one. -/
theorem recipeTag_first_match_cex :
    (scoreRecipe 1000000000000 cexRecipe "pasta" "u1" [] [] false).score
        - (scoreRecipe 1000000000000 { cexRecipe with tags := [] } "pasta" "u1"
            [] [] false).score = 40
      ∧ "pasta" ∈ cexRecipe.tags
      ∧ calculateTextScore "pasta" (some "pasta") ⟨50, 40, 35, 25⟩ = 50
      ∧ (40 : ℚ) ≠ 50 :=
  ⟨by decide, by decide, by decide, by decide⟩

/-- C5 (amended): the tag contribution to the recipe score equals the
*first* tag in list order with a positive match under weights 50/40/35/25
— later tags are not examined, even when they would match at a higher
tier.  On the dedicated tab, the contribution is exactly the score
difference caused by the tag list. -/
theorem recipeTag_contribution_spec :
    (∀ q tags, recipeTagScore q tags =
      ((tags.map (fun tag => calculateTextScore q (some tag) ⟨50, 40, 35, 25⟩)).filter
          (fun s => 0 < s)).headD 0)
  ∧ (∀ (now : Int) (r : Recipe) (q cid : String) (fids sids : List String),
      (scoreRecipe now r q cid fids sids false).score =
        (scoreRecipe now { r with tags := [] } q cid fids sids false).score
          + recipeTagScore q r.tags) := by
  constructor
  · intro q tags
    induction tags with
    | nil => rfl
    | cons t rest ih =>
      simp only [recipeTagScore, List.map_cons, List.filter_cons]
      by_cases hpos : (0 : ℚ) < calculateTextScore q (some t) ⟨50, 40, 35, 25⟩
      · rw [if_pos hpos]
        simp [hpos]
      · rw [if_neg hpos]
        simp [hpos, ih]
  · intro now r q cid fids sids
    rw [scoreRecipe_score, scoreRecipe_score]
    simp only [recipeBaseScore, recipeTagScore, Bool.false_eq_true, if_false]
    ring

/-- C7 counterexample: a timestamp 30 days in the *future* yields a
recency boost of 10 > 5 = maxBoost, so the boost is not bounded by
`maxBoost` for *every* timestamp. -/
theorem recencyBoost_future_cex :
    calculateRecencyBoost 0 2592000000 5 = 10
      ∧ ¬calculateRecencyBoost 0 2592000000 5 ≤ 5 :=
  ⟨by decide, by decide⟩

/-- C7 (amended): for every timestamp **not later than now** (and
nonnegative `maxBoost`), `calculateRecencyBoost` never exceeds
`maxBoost`; in particular the recency term the recipe scorer adds is at
most 5 whenever the recipe's `updatedAt` is not in the future. -/
theorem recencyBoost_cap_spec :
    (∀ (now t : Int) (mb : ℚ), 0 ≤ mb → t ≤ now →
      calculateRecencyBoost now t mb ≤ mb)
  ∧ (∀ (now : Int) (r : Recipe) (q cid : String) (fids sids : List String)
      (b : Bool), r.updatedAt ≤ now →
      ∃ pre, (scoreRecipe now r q cid fids sids b).score
          = pre + calculateRecencyBoost now r.updatedAt 5
        ∧ calculateRecencyBoost now r.updatedAt 5 ≤ 5) := by
  have hcap : ∀ (now t : Int) (mb : ℚ), 0 ≤ mb → t ≤ now →
      calculateRecencyBoost now t mb ≤ mb := by
    intro now t mb hmb h
    simp only [calculateRecencyBoost]
    have hd0 : (0 : ℚ) ≤ ((now - t : Int) : ℚ) / (1000 * 60 * 60 * 24) := by
      apply div_nonneg
      · exact_mod_cast Int.sub_nonneg.mpr h
      · norm_num
    split_ifs with h30
    · exact hmb
    · nlinarith [mul_nonneg hmb hd0]
  refine ⟨hcap, ?_⟩
  intro now r q cid fids sids b hle
  refine ⟨(scoreRecipe now r q cid fids sids b).score
      - calculateRecencyBoost now r.updatedAt 5, by ring, ?_⟩
  exact hcap now r.updatedAt 5 (by norm_num) hle

/-- C7 witness: at `now = 0` with `updatedAt = 0` and `maxBoost = 5` the
boost is bounded by 5. -/
theorem recencyBoost_cap_spec_witness :
    (0 : ℚ) ≤ 5 ∧ (0 : Int) ≤ 0 ∧ calculateRecencyBoost 0 0 5 ≤ 5 :=
  ⟨by norm_num, le_rfl, recencyBoost_cap_spec.1 0 0 5 (by norm_num) le_rfl⟩

/-- C8: a query that is empty or trims to empty yields exactly the empty
response on every tab, and the response does not depend on the data store
at all (no data-store query can influence it). -/
theorem emptyQuery_spec (db : DB) (now : Int) (lg : Nat → ℚ) (uid : String)
    (q tab cursor limit : Option String) (hq : jsTrim (q.getD "") = "") :
    handleSearch db now lg uid q tab cursor limit =
      .ok { users := [], recipes := [], dishLists := [], nextCursor := none }
  ∧ ∀ db₂ : DB, handleSearch db now lg uid q tab cursor limit
      = handleSearch db₂ now lg uid q tab cursor limit := by
  refine ⟨handleSearch_emptyQuery db now lg uid q tab cursor limit hq, fun db₂ => ?_⟩
  rw [handleSearch_emptyQuery db now lg uid q tab cursor limit hq,
    handleSearch_emptyQuery db₂ now lg uid q tab cursor limit hq]

/-- C8 witness: a whitespace-only query on the users tab of `sampleDB`. -/
theorem emptyQuery_spec_witness :
    jsTrim ((some "  ").getD "") = ""
      ∧ handleSearch sampleDB 0 (fun _ => 0) "u1" (some "  ") (some "users")
          none none =
        .ok { users := [], recipes := [], dishLists := [], nextCursor := none } :=
  ⟨by decide,
   (emptyQuery_spec sampleDB 0 (fun _ => 0) "u1" (some "  ") (some "users")
     none none (by decide)).1⟩

/-- C10: the effective page limit is `min(parseInt(limit), 50)` when
`parseInt` yields a nonzero value and 20 when the parameter is absent,
non-numeric or parses to 0; `"0"` behaves as 20, values above 50 clamp to
50, and a negative parsed value is used as-is. -/
theorem pageLimit_spec :
    (∀ s n, jsParseInt s = some n → n ≠ 0 →
      effectivePageLimit (some s) = min n 50)
  ∧ (∀ s, jsParseInt s = none → effectivePageLimit (some s) = 20)
  ∧ (∀ s, jsParseInt s = some 0 → effectivePageLimit (some s) = 20)
  ∧ effectivePageLimit none = 20
  ∧ effectivePageLimit (some "0") = 20
  ∧ (∀ s n, jsParseInt s = some n → 50 < n → effectivePageLimit (some s) = 50)
  ∧ (∀ s n, jsParseInt s = some n → n < 0 → effectivePageLimit (some s) = n) := by
  refine ⟨?_, ?_, ?_, by decide, by decide, ?_, ?_⟩
  · intro s n h hn
    simp only [effectivePageLimit, Option.getD_some, h, jsFalsyOr, if_neg hn]
  · intro s h
    simp only [effectivePageLimit, Option.getD_some, h, jsFalsyOr]
    decide
  · intro s h
    simp only [effectivePageLimit, Option.getD_some, h, jsFalsyOr, if_pos rfl]
    decide
  · intro s n h hn
    simp only [effectivePageLimit, Option.getD_some, h, jsFalsyOr,
      if_neg (by omega : ¬n = 0)]
    omega
  · intro s n h hn
    simp only [effectivePageLimit, Option.getD_some, h, jsFalsyOr,
      if_neg (by omega : ¬n = 0)]
    omega

/-- C10 witness: `limit = "100"` parses to 100 and clamps to 50. -/
theorem pageLimit_spec_witness :
    jsParseInt "100" = some 100 ∧ (100 : Int) ≠ 0
      ∧ effectivePageLimit (some "100") = min 100 50 :=
  ⟨by decide, by decide, pageLimit_spec.1 "100" 100 (by decide) (by decide)⟩

/-- C2: every result of a category search meets the tab's minimum score
threshold — users 30 (ALL) / 40 (dedicated), recipes 30 (both),
dishlists 30 (ALL) / 35 (dedicated) — so lower-scoring candidates are
absent from results. -/
theorem searchThreshold_spec :
    (∀ db q cid fids flids b lim cur su,
      su ∈ searchUsers db q cid fids flids b lim cur →
      (if b then (30 : ℚ) else 40) ≤ su.score)
  ∧ (∀ db now q cid fids sids fdids b lim cur sr,
      sr ∈ searchRecipes db now q cid fids sids fdids b lim cur →
      (30 : ℚ) ≤ sr.score)
  ∧ (∀ db now lg q cid fids fdids b lim cur sd,
      sd ∈ searchDishLists db now lg q cid fids fdids b lim cur →
      (if b then (30 : ℚ) else 35) ≤ sd.score) := by
  refine ⟨?_, ?_, ?_⟩
  · intro db q cid fids flids b lim cur su h
    exact (mem_scoredSortedUsers db q cid fids flids b lim su
      (mem_searchUsers db q cid fids flids b lim cur su h)).1
  · intro db now q cid fids sids fdids b lim cur sr h
    exact (mem_scoredSortedRecipes db now q cid fids sids b lim sr
      (mem_searchRecipes db now q cid fids sids fdids b lim cur sr h)).1
  · intro db now lg q cid fids fdids b lim cur sd h
    exact (mem_scoredSortedDishLists db now lg q cid fids fdids b lim sd
      (mem_searchDishLists db now lg q cid fids fdids b lim cur sd h)).1

/-- C2 witness: concrete members of the three dedicated-tab searches in
`sampleDB` meet the thresholds 40 / 30 / 35. -/
theorem searchThreshold_spec_witness :
    (sampleScoredBob ∈ searchUsers sampleDB "bob" "u1" [] [] false 5 none
      ∧ (40 : ℚ) ≤ sampleScoredBob.score)
  ∧ (sampleScoredRecipe ∈ searchRecipes sampleDB 1000000000000000 "pasta" "u1"
        [] [] [] false 5 none
      ∧ (30 : ℚ) ≤ sampleScoredRecipe.score)
  ∧ (sampleScoredDishList ∈ searchDishLists sampleDB 1000000000000000
        (fun _ => 0) "pasta" "u1" [] [] false 5 none
      ∧ (35 : ℚ) ≤ sampleScoredDishList.score) := by
  refine ⟨⟨by decide, ?_⟩, ⟨by decide, ?_⟩, ⟨by decide, ?_⟩⟩
  · have h := searchThreshold_spec.1 sampleDB "bob" "u1" [] [] false 5 none
      sampleScoredBob (by decide)
    simpa using h
  · exact searchThreshold_spec.2.1 sampleDB 1000000000000000 "pasta" "u1"
      [] [] [] false 5 none sampleScoredRecipe (by decide)
  · have h := searchThreshold_spec.2.2 sampleDB 1000000000000000 (fun _ => 0)
      "pasta" "u1" [] [] false 5 none sampleScoredDishList (by decide)
    simpa using h

theorem paginateTab_subset {α : Type} (full : List α) (pl : Int)
    (gid : α → String) (res : List α) (nc : Option String)
    (h : paginateTab full pl gid = .ok (res, nc)) : res ⊆ full := by
  unfold paginateTab at h
  by_cases hm : pl < (full.length : Int)
  · simp only [hm, decide_True, if_true] at h
    cases hx : (jsSlice full 0 pl).getLast? with
    | none =>
      rw [hx] at h
      cases h
    | some x =>
      rw [hx] at h
      injection h with h
      injection h with h1 h2
      rw [← h1]
      exact jsSlice_subset _ _ _
  · simp only [hm, decide_False, Bool.false_eq_true, if_false] at h
    injection h with h
    injection h with h1 h2
    rw [← h1]
    exact fun a ha => ha

/-- Self-exclusion at the `searchUsers` level: the data-store query
excludes the requester (`uid: { not: currentUserId }`), and scoring
preserves the uid. -/
theorem searchUsers_self_excluded (db : DB) (q cid : String)
    (fids flids : List String) (b : Bool) (lim : Int) (cur : Option String)
    (su : ScoredUser) (h : su ∈ searchUsers db q cid fids flids b lim cur) :
    su.uid ≠ cid := by
  obtain ⟨-, u, hu, hw, heq⟩ := mem_scoredSortedUsers db q cid fids flids b lim su
    (mem_searchUsers db q cid fids flids b lim cur su h)
  rw [heq, scoreUser_uid]
  unfold userWhere at hw
  rw [Bool.and_eq_true] at hw
  exact of_decide_eq_true hw.1

/-- C9: the users result list never contains the requester's own
identifier — at the category-search level for every tab, and at the
response level for every request the handler answers. -/
theorem selfExclusion_spec :
    (∀ db q cid fids flids b lim cur su,
      su ∈ searchUsers db q cid fids flids b lim cur → su.uid ≠ cid)
  ∧ (∀ db now lg uid q tab cursor limit resp su,
      handleSearch db now lg uid q tab cursor limit = Except.ok resp →
      su ∈ resp.users → su.uid ≠ uid) := by
  refine ⟨fun db q cid fids flids b lim cur su h =>
    searchUsers_self_excluded db q cid fids flids b lim cur su h, ?_⟩
  intro db now lg uid q tab cursor limit resp su hresp hmem
  simp only [handleSearch] at hresp
  split_ifs at hresp with h1 h2 h3 h4 h5
  · -- empty query: users is []
    injection hresp with h
    subst h
    simp at hmem
  · -- ALL tab: users is a normalization map over searchUsers
    injection hresp with h
    subst h
    simp only [List.mem_map] at hmem
    obtain ⟨su', hsu', heq⟩ := hmem
    have huid : su.uid = su'.uid := by rw [← heq]
    rw [huid]
    exact searchUsers_self_excluded _ _ _ _ _ _ _ _ _ hsu'
  · -- USERS tab: users is a page of searchUsers
    rcases hp : paginateTab
        (searchUsers db (jsTrim (q.getD "")) uid (followingIdsOf db uid)
          (followerIdsOf db uid) false (effectivePageLimit limit + 1) cursor)
        (effectivePageLimit limit) (fun u => u.uid) with e | ⟨res, nc⟩
    · rw [hp] at hresp
      cases hresp
    · rw [hp] at hresp
      replace hresp : Except.ok (ε := JsError)
          { users := res, recipes := [], dishLists := [],
            nextCursor := nc } = Except.ok resp := hresp
      injection hresp with h
      subst h
      have hsub := paginateTab_subset _ _ _ _ _ hp
      exact searchUsers_self_excluded _ _ _ _ _ _ _ _ _
        (hsub (by simpa using hmem))
  · -- RECIPES tab: users is []
    rcases hp : paginateTab
        (searchRecipes db now (jsTrim (q.getD "")) uid (followingIdsOf db uid)
          (savedRecipeIdsOf db uid) (followedDishListIdsOf db uid) false
          (effectivePageLimit limit + 1) cursor)
        (effectivePageLimit limit) (fun r => r.id) with e | ⟨res, nc⟩
    · rw [hp] at hresp
      cases hresp
    · rw [hp] at hresp
      replace hresp : Except.ok (ε := JsError)
          { users := [], recipes := res, dishLists := [],
            nextCursor := nc } = Except.ok resp := hresp
      injection hresp with h
      subst h
      simp at hmem
  · -- DISHLISTS tab: users is []
    rcases hp : paginateTab
        (searchDishLists db now lg (jsTrim (q.getD "")) uid
          (followingIdsOf db uid) (followedDishListIdsOf db uid) false
          (effectivePageLimit limit + 1) cursor)
        (effectivePageLimit limit) (fun d => d.id) with e | ⟨res, nc⟩
    · rw [hp] at hresp
      cases hresp
    · rw [hp] at hresp
      replace hresp : Except.ok (ε := JsError)
          { users := [], recipes := [], dishLists := res,
            nextCursor := nc } = Except.ok resp := hresp
      injection hresp with h
      subst h
      simp at hmem
  · -- unknown tab: users is []
    injection hresp with h
    subst h
    simp at hmem

/-- C9 witness: a users-tab request in `sampleDB` answers with
`sampleScoredBob`, whose uid differs from the requester `"u1"`. -/
theorem selfExclusion_spec_witness :
    handleSearch sampleDB 0 (fun _ => 0) "u1" (some "bob") (some "users")
        none none =
      Except.ok { users := [sampleScoredBob], recipes := [], dishLists := [],
                  nextCursor := none }
      ∧ sampleScoredBob.uid ≠ "u1" := by
  have hresp : handleSearch sampleDB 0 (fun _ => 0) "u1" (some "bob")
      (some "users") none none =
      Except.ok { users := [sampleScoredBob], recipes := [], dishLists := [],
                  nextCursor := none } := by rfl
  exact ⟨hresp, selfExclusion_spec.2 sampleDB 0 (fun _ => 0) "u1" (some "bob")
    (some "users") none none _ sampleScoredBob hresp (by decide)⟩

/-- C6: on the ALL tab each category list is capped at 10 items, the
normalization multipliers (users ×1.0, recipes ×0.9, dishlists ×0.95) are
applied to each item's score *after* category scoring completes, the
`nextCursor` is always null, and inside each scorer the ≥ 50 social-boost
gate is evaluated on the raw (pre-normalization) score. -/
theorem allTab_normalization_spec (db : DB) (now : Int) (lg : Nat → ℚ)
    (uid q : String) (cursor limit : Option String) (hq : jsTrim q ≠ "") :
    (∃ resp, handleSearch db now lg uid (some q) (some "all") cursor limit
        = Except.ok resp
      ∧ resp.users = List.map (fun u => { u with score := u.score * 1 })
          (searchUsers db (jsTrim q) uid (followingIdsOf db uid)
            (followerIdsOf db uid) true 10 none)
      ∧ resp.recipes = List.map (fun r => { r with score := r.score * (9 / 10) })
          (searchRecipes db now (jsTrim q) uid (followingIdsOf db uid)
            (savedRecipeIdsOf db uid) (followedDishListIdsOf db uid) true 10 none)
      ∧ resp.dishLists = List.map (fun d => { d with score := d.score * (19 / 20) })
          (searchDishLists db now lg (jsTrim q) uid (followingIdsOf db uid)
            (followedDishListIdsOf db uid) true 10 none)
      ∧ resp.users.length ≤ 10 ∧ resp.recipes.length ≤ 10
      ∧ resp.dishLists.length ≤ 10
      ∧ resp.nextCursor = none)
  ∧ (∀ (u : User) (q' cid : String) (fids flids : List String),
      (scoreUser u q' cid fids flids true).score =
        (calculateTextScore q' (some (displayNameOf u.firstName u.lastName))
            ⟨100, 90, 80, 60⟩
          + calculateTextScore q' u.username ⟨100, 70, 65, 50⟩)
        + (if 50 ≤ calculateTextScore q'
              (some (displayNameOf u.firstName u.lastName)) ⟨100, 90, 80, 60⟩
              + calculateTextScore q' u.username ⟨100, 70, 65, 50⟩ then
            (if fids.contains u.uid && flids.contains u.uid then (20 : ℚ)
             else if fids.contains u.uid then 15 else 0)
          else 0))
  ∧ (∀ (now' : Int) (r : Recipe) (q' cid : String) (fids sids : List String),
      (scoreRecipe now' r q' cid fids sids true).score =
        recipeBaseScore r q'
        + (if 50 ≤ recipeBaseScore r q' then
            min 10 ((if sids.contains r.id then (10 : ℚ) else 0)
              + (if fids.contains r.creatorId then 6 else 0))
          else 0)
        + calculateRecencyBoost now' r.updatedAt 5)
  ∧ (∀ (now' : Int) (lg' : Nat → ℚ) (d : DishListCandidate) (q' cid : String)
        (fids fdids : List String),
      (scoreDishList now' lg' d q' cid fids fdids true).score =
        (let base := dishListBaseScore d q'
         let withSocial :=
           if 50 ≤ base then
             base + min 10 ((if fdids.contains d.id then (10 : ℚ) else 0)
               + (if fids.contains d.ownerId then 8 else 0))
           else base
         (if 50 ≤ withSocial then
            withSocial + calculatePopularityBoost lg' d.followerCount 15
          else withSocial)
           + calculateRecencyBoost now' d.updatedAt 5)) := by
  refine ⟨?_, ?_, ?_, ?_⟩
  · rw [handleSearch_allTab db now lg uid q cursor limit hq]
    refine ⟨_, rfl, rfl, rfl, rfl, ?_, ?_, ?_, rfl⟩
    · have h : ((searchUsers db (jsTrim q) uid (followingIdsOf db uid)
          (followerIdsOf db uid) true 10 none).length : Int) ≤ 10 :=
        applyCursor_length_le _ _ _ _ (by norm_num)
      rw [List.length_map]
      exact_mod_cast h
    · have h : ((searchRecipes db now (jsTrim q) uid (followingIdsOf db uid)
          (savedRecipeIdsOf db uid) (followedDishListIdsOf db uid) true 10
          none).length : Int) ≤ 10 :=
        applyCursor_length_le _ _ _ _ (by norm_num)
      rw [List.length_map]
      exact_mod_cast h
    · have h : ((searchDishLists db now lg (jsTrim q) uid (followingIdsOf db uid)
          (followedDishListIdsOf db uid) true 10 none).length : Int) ≤ 10 :=
        applyCursor_length_le _ _ _ _ (by norm_num)
      rw [List.length_map]
      exact_mod_cast h
  · intro u q' cid fids flids
    have h := scoreUser_score u q' cid fids flids true
    simpa using h
  · intro now' r q' cid fids sids
    have h := scoreRecipe_score now' r q' cid fids sids true
    simpa using h
  · intro now' lg' d q' cid fids fdids
    exact scoreDishList_score_all now' lg' d q' cid fids fdids

/-- C6 witness: the ALL tab over `sampleDB` with query `"pasta"`. -/
theorem allTab_normalization_spec_witness :
    jsTrim "pasta" ≠ ""
      ∧ ∃ resp, handleSearch sampleDB 1000000000000000 (fun _ => 0) "u1"
          (some "pasta") (some "all") none none = Except.ok resp
        ∧ resp.users.length ≤ 10 ∧ resp.nextCursor = none := by
  have h := (allTab_normalization_spec sampleDB 1000000000000000 (fun _ => 0)
    "u1" "pasta" none none (by decide)).1
  obtain ⟨resp, h1, _, _, _, h5, _, _, h8⟩ := h
  exact ⟨by decide, resp, h1, h5, h8⟩

/-- C3 counterexample: with `limit = "-5"` the effective page limit is −5
(no lower clamp), the users-tab branch computes an empty sliced page while
`hasMore` is true, and `results[results.length - 1].uid` throws — the
request answers with a 500 error instead of a result page, so the claimed
pagination behaviour does not hold for *every* dedicated-tab request. -/
theorem dedicatedTab_negative_limit_cex :
    effectivePageLimit (some "-5") = -5
      ∧ handleSearch sampleDB 0 (fun _ => 0) "u1" (some "zz") (some "users")
          none (some "-5") = .error .typeError
      ∧ ¬∃ resp, handleSearch sampleDB 0 (fun _ => 0) "u1" (some "zz")
          (some "users") none (some "-5") = Except.ok resp := by
  refine ⟨by decide, by rfl, ?_⟩
  rintro ⟨resp, h⟩
  rw [show handleSearch sampleDB 0 (fun _ => 0) "u1" (some "zz") (some "users")
      none (some "-5") = .error .typeError from by rfl] at h
  cases h

/-- C3 (amended): for every dedicated-tab request with a non-empty query
**whose effective page limit is at least 1** (every request whose `limit`
parameter does not parse negative), the orchestrator requests
`pageLimit + 1` candidates, returns at most `pageLimit`, sets `nextCursor`
to the last returned item's identifier exactly when more than `pageLimit`
candidates were available and to null otherwise; and a supplied cursor
makes the category search return the slice of the re-scored sorted list
starting right after the cursor's position when the cursor id is found,
falling back to the first page when it is stale. -/
theorem dedicatedTab_pagination_spec (db : DB) (now : Int) (lg : Nat → ℚ)
    (uid q : String) (cursor limit : Option String)
    (hq : jsTrim q ≠ "") (hpl : 1 ≤ effectivePageLimit limit) :
    (∀ pl full, pl = effectivePageLimit limit →
      full = searchUsers db (jsTrim q) uid (followingIdsOf db uid)
        (followerIdsOf db uid) false (pl + 1) cursor →
      ∃ resp, handleSearch db now lg uid (some q) (some "users") cursor limit
          = Except.ok resp
        ∧ resp.recipes = [] ∧ resp.dishLists = []
        ∧ (resp.users.length : Int) ≤ pl
        ∧ (resp.nextCursor ≠ none ↔ pl < (full.length : Int))
        ∧ (pl < (full.length : Int) →
            resp.users = full.take pl.toNat
              ∧ resp.nextCursor = resp.users.getLast?.map (fun u => u.uid))
        ∧ ((full.length : Int) ≤ pl → resp.users = full ∧ resp.nextCursor = none))
  ∧ (∀ pl full, pl = effectivePageLimit limit →
      full = searchRecipes db now (jsTrim q) uid (followingIdsOf db uid)
        (savedRecipeIdsOf db uid) (followedDishListIdsOf db uid) false
        (pl + 1) cursor →
      ∃ resp, handleSearch db now lg uid (some q) (some "recipes") cursor limit
          = Except.ok resp
        ∧ resp.users = [] ∧ resp.dishLists = []
        ∧ (resp.recipes.length : Int) ≤ pl
        ∧ (resp.nextCursor ≠ none ↔ pl < (full.length : Int))
        ∧ (pl < (full.length : Int) →
            resp.recipes = full.take pl.toNat
              ∧ resp.nextCursor = resp.recipes.getLast?.map (fun r => r.id))
        ∧ ((full.length : Int) ≤ pl → resp.recipes = full ∧ resp.nextCursor = none))
  ∧ (∀ pl full, pl = effectivePageLimit limit →
      full = searchDishLists db now lg (jsTrim q) uid (followingIdsOf db uid)
        (followedDishListIdsOf db uid) false (pl + 1) cursor →
      ∃ resp, handleSearch db now lg uid (some q) (some "dishlists") cursor limit
          = Except.ok resp
        ∧ resp.users = [] ∧ resp.recipes = []
        ∧ (resp.dishLists.length : Int) ≤ pl
        ∧ (resp.nextCursor ≠ none ↔ pl < (full.length : Int))
        ∧ (pl < (full.length : Int) →
            resp.dishLists = full.take pl.toNat
              ∧ resp.nextCursor = resp.dishLists.getLast?.map (fun d => d.id))
        ∧ ((full.length : Int) ≤ pl → resp.dishLists = full ∧ resp.nextCursor = none))
  ∧ (∀ (α : Type) (scored : List α) (getId : α → String) (lim : Int)
        (c : String) (i : Nat), 0 ≤ lim → ¬c = "" →
      jsFindIndex (fun x => getId x = c) scored = some i →
      applyCursor scored getId lim (some c) = (scored.drop (i + 1)).take lim.toNat)
  ∧ (∀ (α : Type) (scored : List α) (getId : α → String) (lim : Int)
        (c : String), ¬c = "" →
      jsFindIndex (fun x => getId x = c) scored = none →
      applyCursor scored getId lim (some c) = applyCursor scored getId lim none)
  ∧ (∀ b lim cur, searchUsers db (jsTrim q) uid (followingIdsOf db uid)
        (followerIdsOf db uid) b lim cur
      = applyCursor (scoredSortedUsers db (jsTrim q) uid (followingIdsOf db uid)
          (followerIdsOf db uid) b lim) (fun u => u.uid) lim cur)
  ∧ (∀ b lim cur, searchRecipes db now (jsTrim q) uid (followingIdsOf db uid)
        (savedRecipeIdsOf db uid) (followedDishListIdsOf db uid) b lim cur
      = applyCursor (scoredSortedRecipes db now (jsTrim q) uid
          (followingIdsOf db uid) (savedRecipeIdsOf db uid) b lim)
          (fun r => r.id) lim cur)
  ∧ (∀ b lim cur, searchDishLists db now lg (jsTrim q) uid (followingIdsOf db uid)
        (followedDishListIdsOf db uid) b lim cur
      = applyCursor (scoredSortedDishLists db now lg (jsTrim q) uid
          (followingIdsOf db uid) (followedDishListIdsOf db uid) b lim)
          (fun d => d.id) lim cur) := by
  refine ⟨?_, ?_, ?_, ?_, ?_, fun b lim cur => rfl, fun b lim cur => rfl,
    fun b lim cur => rfl⟩
  · intro pl full hpl' hfull
    subst hpl'
    subst hfull
    rw [handleSearch_usersTab db now lg uid q cursor limit hq]
    obtain ⟨res, nc, heq, hlen, hiff, hmore, hless⟩ :=
      paginateTab_spec (searchUsers db (jsTrim q) uid (followingIdsOf db uid)
        (followerIdsOf db uid) false (effectivePageLimit limit + 1) cursor)
        (effectivePageLimit limit) (fun u => u.uid) hpl
    rw [heq]
    exact ⟨_, rfl, rfl, rfl, hlen, hiff, hmore, hless⟩
  · intro pl full hpl' hfull
    subst hpl'
    subst hfull
    rw [handleSearch_recipesTab db now lg uid q cursor limit hq]
    obtain ⟨res, nc, heq, hlen, hiff, hmore, hless⟩ :=
      paginateTab_spec (searchRecipes db now (jsTrim q) uid (followingIdsOf db uid)
        (savedRecipeIdsOf db uid) (followedDishListIdsOf db uid) false
        (effectivePageLimit limit + 1) cursor)
        (effectivePageLimit limit) (fun r => r.id) hpl
    rw [heq]
    exact ⟨_, rfl, rfl, rfl, hlen, hiff, hmore, hless⟩
  · intro pl full hpl' hfull
    subst hpl'
    subst hfull
    rw [handleSearch_dishListsTab db now lg uid q cursor limit hq]
    obtain ⟨res, nc, heq, hlen, hiff, hmore, hless⟩ :=
      paginateTab_spec (searchDishLists db now lg (jsTrim q) uid
        (followingIdsOf db uid) (followedDishListIdsOf db uid) false
        (effectivePageLimit limit + 1) cursor)
        (effectivePageLimit limit) (fun d => d.id) hpl
    rw [heq]
    exact ⟨_, rfl, rfl, rfl, hlen, hiff, hmore, hless⟩
  · intro α scored getId lim c i hlim hc hfind
    have hi := jsFindIndex_lt_length _ _ _ hfind
    have hw := jsSlice_window scored ((i : Int) + 1) lim (by omega)
      (by omega) hlim
    rw [show ((i : Int) + 1).toNat = i + 1 from by omega] at hw
    simp only [applyCursor]
    rw [if_neg hc, hfind]
    exact hw
  · intro α scored getId lim c hc hfind
    simp only [applyCursor]
    rw [if_neg hc, hfind]

/-- C3 witness: a users-tab request over `sampleDB` with default limit. -/
theorem dedicatedTab_pagination_spec_witness :
    jsTrim "bob" ≠ "" ∧ (1 : Int) ≤ effectivePageLimit none
      ∧ ∃ resp, handleSearch sampleDB 0 (fun _ => 0) "u1" (some "bob")
          (some "users") none none = Except.ok resp
        ∧ (resp.users.length : Int) ≤ effectivePageLimit none
        ∧ resp.nextCursor = none := by
  obtain ⟨resp, h1, _, _, h4, _, _, h7⟩ :=
    (dedicatedTab_pagination_spec sampleDB 0 (fun _ => 0) "u1" "bob" none none
      (by decide) (by decide)).1 _ _ rfl rfl
  refine ⟨by decide, by decide, resp, h1, h4, ?_⟩
  exact (h7 (by decide)).2
